import Mathlib

/-!
Verification development for the HYD-LivePerformance measure-synchronized
rate-change subsystem.

Embedded components (shallow embedding, translated from the sources):
* the Timing Coordinator state machine of the REAPER Lua script
  "HYD Measure Sync" v1.4.0 (`update_countdown`, `process_commands`,
  `execute_speed_change_stop`, `execute_speed_change_play`, `parse_command`);
* the Rate Controller / Transport Proxy of the Node bot
  (`game-engine.js` `processAction`, `isOnCooldown`, `getCooldownRemaining`,
  `speedUp`, `slowDown`, `chaos`, `reset`, `setPlayrateDirect`,
  `calculateDynamicPrices`; `reaper.js` `setPlayrate`, `getScaledIncrement`,
  `canSpeedUp`, `canSlowDown`).

JavaScript / Lua numbers are modelled as rationals (`ℚ`); `Math.round` and
Lua rounding helpers are floor-based half-up rounding, exactly as in the
V8 / Lua semantics for the magnitudes involved.  `Math.pow` with the fixed
fractional exponent 1.5 (dynamic pricing only) is modelled over the reals.
-/

/-! ## Timing Coordinator (Lua script HYD-MeasureSync v1.4.0) -/

/-- Execution phase of the coordinator.  In the Lua source `state.exec_phase`
is one of `nil`, `"stopped"`, `"waiting_for_precount"` (v1.4.0 only ever
assigns `nil` and `"waiting_for_precount"`). -/
inductive ExecPhase where
  | stopped
  | waitingForPrecount
deriving DecidableEq, Repr

/-- The `state.pending_change` record of the Lua script:
`{newRate, warningBeats, totalBeats, preCountBars, queuedAt}`. -/
structure Pending where
  newRate : ℚ
  warningBeats : ℕ
  totalBeats : ℕ
  preCountBars : ℕ
  queuedAt : ℚ
deriving DecidableEq, Repr

/-- The coordinator's mutable state: the Lua `state` table plus the two
file-scope beat-tracking variables `last_beat_int` / `last_measure_int`. -/
structure CoordState where
  enabled : Bool
  pending_change : Option Pending
  countdown_beats : ℕ
  current_measure : ℚ
  current_beat : ℚ
  beats_in_measure : ℚ
  is_executing : Bool
  last_playrate : ℚ
  waiting_for_measure_end : Bool
  trigger_measure : ℤ
  exec_phase : Option ExecPhase
  exec_precount_bars : ℕ
  exec_new_rate : ℚ
  waiting_for_precount : Bool
  last_beat_int : ℤ
  last_measure_int : ℤ
deriving DecidableEq, Repr

/-- Initial coordinator state (the Lua `state` initializer together with
`last_beat_int = -1`, `last_measure_int = -1`). -/
def initCoordState : CoordState where
  enabled := false
  pending_change := none
  countdown_beats := 0
  current_measure := 0
  current_beat := 0
  beats_in_measure := 4
  is_executing := false
  last_playrate := 1
  waiting_for_measure_end := false
  trigger_measure := -1
  exec_phase := none
  exec_precount_bars := 0
  exec_new_rate := 0
  waiting_for_precount := false
  last_beat_int := -1
  last_measure_int := -1

/-- Host-side actions the coordinator issues to REAPER during execution. -/
inductive HostAction where
  | stopButton
  | mainStop
  | setRate (r : ℚ)
  | setEditCur (t : ℚ)
  | play
deriving DecidableEq, Repr

/-- The REAPER environment observed during `execute_speed_change_stop`:
the play position converted to (fractional) measures, the
`TimeMap_GetMeasureInfo`-based measure-start lookup, and whether the
transport still reports playing after `OnStopButton`. -/
structure Host where
  playMeasures : ℚ
  measureStart : ℤ → Option ℚ
  stillPlayingAfterStop : Bool

/-- Lua `execute_speed_change_stop` (v1.4.0): stop transport, apply the new
rate natively, seek to the start of the measure just reached, clear the
pending change and enter the waiting-for-precount phase. -/
def execute_speed_change_stop (host : Host) (s : CoordState) :
    CoordState × List HostAction :=
  match s.pending_change with
  | none => (s, [])
  | some pc =>
    let new_rate := pc.newRate
    let precount_bars := pc.preCountBars
    let target_measure : ℤ := ⌊host.playMeasures⌋
    let target_time := host.measureStart target_measure
    let acts : List HostAction :=
      [HostAction.stopButton]
        ++ (if host.stillPlayingAfterStop then [HostAction.mainStop] else [])
        ++ [HostAction.setRate new_rate]
        ++ (match target_time with
            | some t => [HostAction.setEditCur t]
            | none => [])
    ({ s with
        is_executing := true
        last_playrate := new_rate
        pending_change := none
        countdown_beats := 0
        waiting_for_measure_end := false
        trigger_measure := -1
        exec_phase := some ExecPhase.waitingForPrecount
        exec_precount_bars := precount_bars
        exec_new_rate := new_rate
        waiting_for_precount := true }, acts)

/-- Lua `execute_speed_change_play` (v1.4.0): resume transport after the
GameHUD pre-count, clearing the execution phase and the beat tracking. -/
def execute_speed_change_play (s : CoordState) : CoordState × List HostAction :=
  ({ s with
      exec_phase := none
      exec_precount_bars := 0
      exec_new_rate := 0
      waiting_for_precount := false
      is_executing := false
      last_beat_int := -1
      last_measure_int := -1 }, [HostAction.play])

/-- Lua `execute_speed_change` (v1.4.0): the immediate-execution wrapper
used by the `executeNow` command — stop phase, clear `exec_phase`, play. -/
def execute_speed_change (host : Host) (s : CoordState) :
    CoordState × List HostAction :=
  let r1 := execute_speed_change_stop host s
  let s2 := { r1.1 with exec_phase := none }
  let r2 := execute_speed_change_play s2
  (r2.1, r1.2 ++ r2.2)

/-- Lua `update_countdown` (v1.4.0): beat-edge detection, countdown
decrement, transition to waiting-for-measure-end, and the measure-boundary
check that fires `execute_speed_change_stop`. -/
def update_countdown (host : Host) (is_playing : Bool) (s : CoordState) :
    CoordState × List HostAction :=
  if s.pending_change = none ∨ is_playing = false ∨ s.is_executing = true then
    (s, [])
  else
    let beat_int : ℤ := ⌊s.current_beat⌋
    let measure_int : ℤ := ⌊s.current_measure⌋
    if s.waiting_for_measure_end = true then
      if measure_int ≠ s.last_measure_int ∧ s.trigger_measure < measure_int then
        execute_speed_change_stop host s
      else if measure_int ≠ s.last_measure_int ∨ beat_int ≠ s.last_beat_int then
        ({ s with last_measure_int := measure_int, last_beat_int := beat_int }, [])
      else (s, [])
    else
      if measure_int ≠ s.last_measure_int ∨ beat_int ≠ s.last_beat_int then
        let s1 := { s with last_measure_int := measure_int, last_beat_int := beat_int }
        let s2 :=
          if 0 < s1.countdown_beats then
            { s1 with countdown_beats := s1.countdown_beats - 1 }
          else s1
        if s2.countdown_beats = 0 ∧ s2.waiting_for_measure_end = false then
          ({ s2 with waiting_for_measure_end := true, trigger_measure := measure_int }, [])
        else (s2, [])
      else (s, [])

/-- One observation of the host transport made by `update_position`:
`GetPlayState` and the `TimeMap2_timeToBeats` conversion of the play/cursor
position (beat within measure is 0-based and fractional; the measure number
can be fractional). -/
structure Obs where
  playState : ℕ
  measures : ℚ
  beatInMeasure : ℚ
  cml : ℚ

/-- Lua `update_position`: record measure/beat/time-signature from the
observation, and report whether the transport is playing
(`(play_state & 1) == 1`). -/
def update_position (o : Obs) (s : CoordState) : CoordState × Bool :=
  ({ s with
      current_measure := o.measures
      current_beat := o.beatInMeasure
      beats_in_measure := o.cml }, o.playState % 2 = 1)

/-- One position-poll step of the Lua `Main` loop: `update_position`, then
`update_countdown` when enabled with a pending change and not waiting for
the pre-count.  (The status-file write has no effect on coordinator state.) -/
def pollTick (host : Host) (o : Obs) (s : CoordState) :
    CoordState × List HostAction :=
  let r := update_position o s
  let s1 := r.1
  let is_playing := r.2
  if s1.enabled = true ∧ s1.pending_change ≠ none ∧ s1.waiting_for_precount = false then
    update_countdown host is_playing s1
  else (s1, [])

/-- A parsed command (`parse_command`'s result table): each field is `nil`
when its pattern does not match. -/
structure Cmd where
  action : Option String
  newRate : Option ℚ
  warningBeats : Option ℕ
  preCountBars : Option ℕ
deriving DecidableEq, Repr

/-- The command dispatch of `process_commands` (Lua, v1.4.0), applied to an
already-parsed command.  `now` is `reaper.time_precise()` (for `queuedAt`). -/
def applyCmd (host : Host) (now : ℚ) (c : Cmd) (s : CoordState) :
    CoordState × List HostAction :=
  match c.action with
  | none => (s, [])
  | some a =>
    if a = "enable" then ({ s with enabled := true }, [])
    else if a = "disable" then
      ({ s with
          enabled := false
          pending_change := none
          countdown_beats := 0
          waiting_for_measure_end := false
          trigger_measure := -1 }, [])
    else if a = "queue" then
      match c.newRate with
      | some r =>
        let warning_beats := c.warningBeats.getD 4
        ({ s with
            enabled := true
            pending_change := some
              { newRate := r
                warningBeats := warning_beats
                totalBeats := warning_beats
                preCountBars := c.preCountBars.getD 1
                queuedAt := now }
            countdown_beats := warning_beats
            waiting_for_measure_end := false
            trigger_measure := -1
            last_beat_int := -1
            last_measure_int := -1 }, [])
      | none => (s, [])
    else if a = "cancel" then
      ({ s with
          pending_change := none
          countdown_beats := 0
          waiting_for_measure_end := false
          trigger_measure := -1 }, [])
    else if a = "executeNow" then
      if s.pending_change ≠ none then execute_speed_change host s else (s, [])
    else if a = "startPlayback" then
      if s.waiting_for_precount = true then execute_speed_change_play s else (s, [])
    else (s, [])

/-! ### The Lua pattern scanner of `parse_command`

`parse_command` extracts each field with a Lua string pattern:
`'"action"%s*:%s*"([^"]*)"'` for the action and
`'"<key>"%s*:%s*([%d%.%-]+)'` / `'"<key>"%s*:%s*([%d]+)'` followed by
`tonumber` for the numeric fields.  `string.match` scans for the earliest
position at which the whole pattern matches; none of these patterns can
succeed through backtracking (each greedy run is followed by a character
excluded from the run), so maximal-munch scanning below is exact. -/

/-- Lua `%s` character class: space, tab, newline, vertical tab, form feed,
carriage return. -/
def isLuaSpace (c : Char) : Bool :=
  c = ' ' ∨ c = '\t' ∨ c = '\n' ∨ c = '\x0b' ∨ c = '\x0c' ∨ c = '\r'

/-- Strip an exact literal prefix, returning the remainder on success. -/
def dropLit : List Char → List Char → Option (List Char)
  | [], cs => some cs
  | _ :: _, [] => none
  | p :: ps, c :: cs => if c = p then dropLit ps cs else none

/-- Attempt the pattern `"key"%s*:%s*"([^"]*)"` at the head of `cs`,
returning the captured characters. -/
def matchKeyString (key : List Char) (cs : List Char) : Option (List Char) :=
  (dropLit ('"' :: key ++ ['"']) cs).bind fun cs1 =>
    match cs1.dropWhile isLuaSpace with
    | ':' :: cs2 =>
      match cs2.dropWhile isLuaSpace with
      | '"' :: cs3 =>
        match cs3.dropWhile (fun c => ¬ c = '"') with
        | '"' :: _ => some (cs3.takeWhile (fun c => ¬ c = '"'))
        | _ => none
      | _ => none
    | _ => none

/-- Attempt the pattern `"key"%s*:%s*([class]+)` at the head of `cs`. -/
def matchKeyRun (key : List Char) (cls : Char → Bool) (cs : List Char) :
    Option (List Char) :=
  (dropLit ('"' :: key ++ ['"']) cs).bind fun cs1 =>
    match cs1.dropWhile isLuaSpace with
    | ':' :: cs2 =>
      let cap := (cs2.dropWhile isLuaSpace).takeWhile cls
      if cap = [] then none else some cap
    | _ => none

/-- Earliest-position scan for `matchKeyString` (Lua `string.match`). -/
def findKeyString (key : List Char) : List Char → Option (List Char)
  | [] => none
  | c :: cs =>
    match matchKeyString key (c :: cs) with
    | some cap => some cap
    | none => findKeyString key cs

/-- Earliest-position scan for `matchKeyRun` (Lua `string.match`). -/
def findKeyRun (key : List Char) (cls : Char → Bool) :
    List Char → Option (List Char)
  | [] => none
  | c :: cs =>
    match matchKeyRun key cls (c :: cs) with
    | some cap => some cap
    | none => findKeyRun key cls cs

/-- Digit run to a natural number. -/
def digitsToNat (cs : List Char) : ℕ :=
  cs.foldl (fun n c => 10 * n + (c.toNat - '0'.toNat)) 0

/-- Lua `tonumber` on a nonempty run of characters from `[%d%.%-]` without a
leading minus: digits with at most one decimal point, at least one digit. -/
def luaUnsigned (cs : List Char) : Option ℚ :=
  let intPart := cs.takeWhile Char.isDigit
  match cs.dropWhile Char.isDigit with
  | [] => if intPart = [] then none else some (digitsToNat intPart : ℚ)
  | '.' :: frac =>
    if frac.all Char.isDigit ∧ (intPart ≠ [] ∨ frac ≠ []) then
      some ((digitsToNat intPart : ℚ) + (digitsToNat frac : ℚ) / 10 ^ frac.length)
    else none
  | _ => none

/-- Lua `tonumber` on a run of characters from `[%d%.%-]`: an optional
leading minus sign, then an unsigned decimal number. -/
def luaTonumber (cs : List Char) : Option ℚ :=
  match cs with
  | '-' :: rest => (luaUnsigned rest).map (fun q => -q)
  | _ => luaUnsigned cs

/-- Character class `[%d%.%-]` of the `newRate` pattern. -/
def numChar (c : Char) : Bool := c.isDigit ∨ c = '.' ∨ c = '-'

/-- Lua `parse_command` (v1.4.0) on non-nil, nonempty file content. -/
def parse_command (json : String) : Cmd :=
  let cs := json.toList
  { action := (findKeyString "action".toList cs).map (fun l => String.mk l)
    newRate := (findKeyRun "newRate".toList numChar cs).bind luaTonumber
    warningBeats := (findKeyRun "warningBeats".toList Char.isDigit cs).map digitsToNat
    preCountBars := (findKeyRun "preCountBars".toList Char.isDigit cs).map digitsToNat }

/-- One command-poll step of the Lua `Main` loop (`process_commands`): the
command mailbox (`measureSync_command.json`) is a single optional file,
deleted immediately after being read; empty or unparsable content is
discarded.  Returns the mailbox after the step, the new state and the host
actions issued. -/
def process_commands (host : Host) (now : ℚ) (mb : Option String) (s : CoordState) :
    Option String × CoordState × List HostAction :=
  match mb with
  | none => (none, s, [])
  | some content =>
    if content = "" then (none, s, [])
    else
      let c := parse_command content
      match c.action with
      | none => (none, s, [])
      | some _ =>
        let r := applyCmd host now c s
        (none, r.1, r.2)

/-! ## Rate Controller and Transport Proxy (bot: `game-engine.js`, `reaper.js`)

JavaScript numbers are modelled as `ℚ`.  `x || d` on a number is `jsOr`
(0 is falsy).  `Math.round` is `jsRound` (half-up, floor-based).  Reward
prices computed by the dynamic-pricing path are pushed to the external
reward API; the engine state keeps only the throttle timestamp
(`lastPriceUpdate`), while the price computation itself is modelled
separately (`calculateDynamicPrices` below). -/

/-- JavaScript `x || d` for numbers: `0` is falsy. -/
def jsOr (x d : ℚ) : ℚ := if x = 0 then d else x

/-- JavaScript `Math.round`: half-up rounding, `⌊x + 1/2⌋`. -/
def jsRound (x : ℚ) : ℤ := ⌊x + 1/2⌋

/-- JavaScript `Math.round(x * 100) / 100` — round to 2 decimal places. -/
def round2 (q : ℚ) : ℚ := (jsRound (q * 100) : ℚ) / 100

/-- JavaScript `Math.round(x * 1000) / 1000` — round to 3 decimal places. -/
def round3 (q : ℚ) : ℚ := (jsRound (q * 1000) : ℚ) / 1000

/-- The bot configuration fields the engine reads (`config.js` defaults:
bounds 0.5/4.0, default 1.0, cooldown enabled 5 s, scaling reference 120,
increments 0.1). -/
structure GameCfg where
  enabled : Bool
  minPlayrate : ℚ
  maxPlayrate : ℚ
  defaultPlayrate : ℚ
  cooldownEnabled : Bool
  cooldownSeconds : ℚ
  scalingEnabled : Bool
  referenceBpm : ℚ
  speedUpIncrement : ℚ
  slowDownIncrement : ℚ
  autoResetEnabled : Bool
  autoResetDelaySeconds : ℚ
  dynamicPricingEnabled : Bool
deriving DecidableEq, Repr

/-- One entry of the engine's bounded action history. -/
structure HistEntry where
  action : String
  username : String
  newRate : ℚ
  source : Option String
  timestamp : ℚ
deriving DecidableEq, Repr

/-- Mutable engine state: `GameEngine`'s `lastActionTime`, `actionHistory`,
`lastPriceUpdate` and auto-reset timer together with `ReaperOSC`'s
last-known `currentPlayrate` / `currentBpm`. -/
structure EngState where
  lastActionTime : ℚ
  history : List HistEntry
  lastPriceUpdate : ℚ
  autoResetAt : Option ℚ
  playrate : ℚ
  bpm : ℚ
deriving DecidableEq, Repr

/-- The proxy's `reaper.setPlayrate` (reaper.js): clamp to `[minPlayrate, maxPlayrate]`,
round to 2 decimals; this is the applied rate returned to the caller and
stored as the last-known rate. -/
def setPlayrate (cfg : GameCfg) (r : ℚ) : ℚ :=
  round2 (max cfg.minPlayrate (min cfg.maxPlayrate r))

/-- The normalized value `reaper.setPlayrate` sends over OSC: the applied
rate mapped linearly from REAPER's slider span `[0.25, 4.0]` into `[0, 1]`
and clamped to `[0, 1]`. -/
def setPlayrateNormalized (cfg : GameCfg) (r : ℚ) : ℚ :=
  max 0 (min 1 ((setPlayrate cfg r - 1/4) / (4 - 1/4)))

/-- The proxy's `reaper.getScaledIncrement`: proportional scaling by
`referenceBpm / currentBpm` (both defaulting to 120 when falsy), rounded to
3 decimals; identity when scaling is disabled. -/
def getScaledIncrement (cfg : GameCfg) (bpm : ℚ) (baseIncrement : ℚ) : ℚ :=
  if cfg.scalingEnabled = false then baseIncrement
  else round3 (baseIncrement * (jsOr cfg.referenceBpm 120 / jsOr bpm 120))

/-- Predicate `reaper.canSpeedUp`: current rate strictly below the maximum. -/
def canSpeedUp (cfg : GameCfg) (playrate : ℚ) : Bool := playrate < cfg.maxPlayrate

/-- Predicate `reaper.canSlowDown`: current rate strictly above the minimum. -/
def canSlowDown (cfg : GameCfg) (playrate : ℚ) : Bool := cfg.minPlayrate < playrate

/-- The engine's `isOnCooldown`: elapsed seconds since the last action below
the configured cooldown (false when the global cooldown is disabled). -/
def isOnCooldown (cfg : GameCfg) (now : ℚ) (s : EngState) : Bool :=
  if cfg.cooldownEnabled = false then false
  else (now - s.lastActionTime) / 1000 < cfg.cooldownSeconds

/-- The engine's `getCooldownRemaining`:
`Math.max(0, Math.ceil(seconds - elapsed))`. -/
def getCooldownRemaining (cfg : GameCfg) (now : ℚ) (s : EngState) : ℤ :=
  if cfg.cooldownEnabled = false then 0
  else max 0 ⌈cfg.cooldownSeconds - (now - s.lastActionTime) / 1000⌉

/-- The action kinds dispatched by `processAction`'s switch; `setExact` is
the spec's name for exact-rate setting (no switch case exists for it). -/
inductive GAction where
  | speedUp
  | slowDown
  | chaos
  | reset
  | setExact
deriving DecidableEq, Repr

/-- The string key of an action kind (used for the history entries). -/
def actionName : GAction → String
  | GAction.speedUp => "speedUp"
  | GAction.slowDown => "slowDown"
  | GAction.chaos => "chaos"
  | GAction.reset => "reset"
  | GAction.setExact => "setExact"

/-- The result fields of `processAction` the claims inspect: success flag,
reason code, new rate, and the reported remaining cooldown seconds. -/
structure GResult where
  success : Bool
  reason : Option String
  newRate : Option ℚ
  cooldownRemaining : Option ℤ
deriving DecidableEq, Repr

/-- The engine's `addToHistory`: unshift the entry, cap the list at 50. -/
def addToHistory (act user : String) (newRate : ℚ) (src : Option String)
    (now : ℚ) (s : EngState) : EngState :=
  let h : List HistEntry :=
    { action := act, username := user, newRate := newRate, source := src,
      timestamp := now } :: s.history
  { s with history := if 50 < h.length then h.dropLast else h }

/-- The engine's `scheduleAutoReset`: restart the single-shot reset deadline
when auto-reset is enabled (modelled as an explicit `fireAt` deadline). -/
def scheduleAutoReset (cfg : GameCfg) (now : ℚ) (s : EngState) : EngState :=
  if cfg.autoResetEnabled = false then s
  else { s with autoResetAt := some (now + cfg.autoResetDelaySeconds * 1000) }

/-- The engine's `updatePrices`: throttled to one external price sync per
2000 ms; only the throttle timestamp lives in engine state. -/
def updatePrices (cfg : GameCfg) (now : ℚ) (s : EngState) : EngState :=
  if cfg.dynamicPricingEnabled = false then s
  else if now - s.lastPriceUpdate < 2000 then s
  else { s with lastPriceUpdate := now }

/-- The engine's `speedUp`: fail with `maxReached` when `canSpeedUp` is false,
else apply the scaled increment through `setPlayrate`. -/
def speedUp (cfg : GameCfg) (increment : ℚ) (s : EngState) : GResult × EngState :=
  if canSpeedUp cfg s.playrate = false then
    ({ success := false, reason := some "maxReached", newRate := none,
       cooldownRemaining := none }, s)
  else
    let scaled := getScaledIncrement cfg s.bpm increment
    let nr := setPlayrate cfg (s.playrate + scaled)
    ({ success := true, reason := none, newRate := some nr,
       cooldownRemaining := none }, { s with playrate := nr })

/-- The engine's `slowDown`: fail with `minReached` when `canSlowDown` is
false, else apply the negated scaled increment through `setPlayrate`. -/
def slowDown (cfg : GameCfg) (increment : ℚ) (s : EngState) : GResult × EngState :=
  if canSlowDown cfg s.playrate = false then
    ({ success := false, reason := some "minReached", newRate := none,
       cooldownRemaining := none }, s)
  else
    let scaled := getScaledIncrement cfg s.bpm increment
    let nr := setPlayrate cfg (s.playrate + -scaled)
    ({ success := true, reason := none, newRate := some nr,
       cooldownRemaining := none }, { s with playrate := nr })

/-- The engine's `chaos` via `reaper.setRandomPlayrate`: a uniform draw
`min + rand * (max - min)` (`rand` is the `Math.random()` sample) applied
through `setPlayrate`. -/
def chaos (cfg : GameCfg) (rand : ℚ) (s : EngState) : GResult × EngState :=
  let nr := setPlayrate cfg (cfg.minPlayrate + rand * (cfg.maxPlayrate - cfg.minPlayrate))
  ({ success := true, reason := none, newRate := some nr,
     cooldownRemaining := none }, { s with playrate := nr })

/-- The engine's `reset` via `reaper.resetPlayrate`. -/
def reset (cfg : GameCfg) (s : EngState) : GResult × EngState :=
  let nr := setPlayrate cfg cfg.defaultPlayrate
  ({ success := true, reason := none, newRate := some nr,
     cooldownRemaining := none }, { s with playrate := nr })

/-- The engine's `processAction` (game-engine.js): the policy entry point —
disabled check, global cooldown check, switch on the action kind, then on
success: stamp `lastActionTime`, append to history, restart auto-reset,
throttled price update. -/
def processAction (cfg : GameCfg) (rand : ℚ) (act : GAction) (user : String)
    (src : Option String) (now : ℚ) (s : EngState) : GResult × EngState :=
  if cfg.enabled = false then
    ({ success := false, reason := some "disabled", newRate := none,
       cooldownRemaining := none }, s)
  else if isOnCooldown cfg now s = true then
    ({ success := false, reason := some "cooldown", newRate := none,
       cooldownRemaining := some (getCooldownRemaining cfg now s) }, s)
  else
    let step : GResult × EngState :=
      match act with
      | GAction.speedUp => speedUp cfg (jsOr cfg.speedUpIncrement (1/10)) s
      | GAction.slowDown => slowDown cfg (jsOr cfg.slowDownIncrement (1/10)) s
      | GAction.chaos => chaos cfg rand s
      | GAction.reset => reset cfg s
      | GAction.setExact =>
        ({ success := false, reason := some "unknown", newRate := none,
           cooldownRemaining := none }, s)
    if step.1.success = true then
      (step.1,
        updatePrices cfg now
          (scheduleAutoReset cfg now
            (addToHistory (actionName act) user (step.1.newRate.getD 0) src now
              { step.2 with lastActionTime := now })))
    else step

/-- The engine's `setPlayrateDirect` (game-engine.js): the exact-rate entry
point (mod command).  Range-validates against the (falsy-defaulted) bounds,
then applies the rate — with no disabled check and no cooldown check. -/
def setPlayrateDirect (cfg : GameCfg) (user : String) (rate : ℚ)
    (src : Option String) (now : ℚ) (s : EngState) : GResult × EngState :=
  let minRate := jsOr cfg.minPlayrate (1/2)
  let maxRate := jsOr cfg.maxPlayrate 4
  if rate < minRate ∨ maxRate < rate then
    ({ success := false, reason := some "invalidRate", newRate := none,
       cooldownRemaining := none }, s)
  else
    let nr := setPlayrate cfg rate
    let s1 := { s with playrate := nr, lastActionTime := now }
    let s2 := addToHistory "setPlayrate" user nr (some (src.getD "modCommand")) now s1
    let s3 := scheduleAutoReset cfg now s2
    let s4 := updatePrices cfg now s3
    ({ success := true, reason := none, newRate := some nr,
       cooldownRemaining := none }, s4)

/-! ## Dynamic pricing (`calculateDynamicPrices`, game-engine.js)

`Math.pow(baseMultiplier, 1.5)` has a fractional exponent, so this part of
the model lives over the reals (real power `x ^ (1.5 : ℝ)`), and is the one
noncomputable corner of the development. -/

/-- The dynamic-pricing configuration (`rewards.dynamicPricing` together
with the per-reward base costs). -/
structure PricingCfg where
  enabled : Bool
  scaleFactor : ℝ
  minCost : ℝ
  maxCost : ℝ
  resetDiscountAtExtremes : Bool
  speedUpBase : ℝ
  slowDownBase : ℝ
  chaosBase : ℝ
  resetBase : ℝ

/-- The per-reward prices returned by `calculateDynamicPrices`. -/
structure Prices where
  speedUp : ℝ
  slowDown : ℝ
  chaos : ℝ
  reset : ℝ

/-- JavaScript `Math.round` over the reals (integer-valued). -/
noncomputable def jsRoundR (x : ℝ) : ℝ := (⌊x + 1/2⌋ : ℤ)

/-- The engine's `calculateDynamicPrices` (game-engine.js): cost multipliers
from the distance of the playrate from 1.0x — super-linear
(`baseMultiplier ^ 1.5`) on the side already departed from, discounted on
the returning side — all clamped to `[minCost, maxCost]` and rounded. -/
noncomputable def calculateDynamicPrices (cfg : PricingCfg) (playrate : ℝ) : Prices :=
  if cfg.enabled = false then
    { speedUp := cfg.speedUpBase, slowDown := cfg.slowDownBase,
      chaos := cfg.chaosBase, reset := cfg.resetBase }
  else
    let distanceFromNormal := |playrate - 1|
    let baseMultiplier := 1 + distanceFromNormal * cfg.scaleFactor
    let speedUpMultiplier :=
      if 1 < playrate then baseMultiplier ^ (1.5 : ℝ)
      else if playrate < 1 then max 0.5 (1 - distanceFromNormal * 0.5)
      else 1
    let slowDownMultiplier :=
      if playrate < 1 then baseMultiplier ^ (1.5 : ℝ)
      else if 1 < playrate then max 0.5 (1 - distanceFromNormal * 0.3)
      else 1
    let chaosMultiplier := 1 + distanceFromNormal * cfg.scaleFactor * 0.5
    let resetMultiplier :=
      if cfg.resetDiscountAtExtremes = true ∧ 0.5 < distanceFromNormal then
        max 0.5 (1 - distanceFromNormal * 0.4)
      else 1
    let clampCost := fun v : ℝ => jsRoundR (min cfg.maxCost (max cfg.minCost v))
    { speedUp := clampCost (cfg.speedUpBase * speedUpMultiplier)
      slowDown := clampCost (cfg.slowDownBase * slowDownMultiplier)
      chaos := clampCost (cfg.chaosBase * chaosMultiplier)
      reset := clampCost (cfg.resetBase * resetMultiplier) }

/-- The default pricing configuration of `config.js`: scaleFactor 1.5,
costs clamped to [100, 50000], equal speed-up/slow-down base costs 500. -/
def defaultPricing : PricingCfg :=
  { enabled := true
    scaleFactor := 1.5
    minCost := 100
    maxCost := 50000
    resetDiscountAtExtremes := true
    speedUpBase := 500
    slowDownBase := 500
    chaosBase := 2500
    resetBase := 1500 }

/-! ### Concrete instances used by witnesses and counterexamples -/

/-- A representative engine configuration: the `config.js` defaults with
proportional scaling and dynamic pricing switched off (both are
configuration options). -/
def cfgStd : GameCfg :=
  { enabled := true
    minPlayrate := 1/2
    maxPlayrate := 4
    defaultPlayrate := 1
    cooldownEnabled := true
    cooldownSeconds := 5
    scalingEnabled := false
    referenceBpm := 120
    speedUpIncrement := 1/10
    slowDownIncrement := 1/10
    autoResetEnabled := false
    autoResetDelaySeconds := 60
    dynamicPricingEnabled := false }

/-- Variant of `cfgStd` with the global cooldown disabled. -/
def cfgNoCd : GameCfg := { cfgStd with cooldownEnabled := false }

/-- Variant of `cfgStd` with a fractional cooldown of 4.5 seconds. -/
def cfgHalfCd : GameCfg := { cfgStd with cooldownSeconds := 9/2 }

/-- Variant of `cfgStd` with a minimum playrate of 0.034, which is not a whole number
of hundredths. -/
def cfgTight : GameCfg := { cfgStd with minPlayrate := 17/500 }

/-- An engine state far past any cooldown, with the playrate at 3.95x. -/
def engNear : EngState :=
  { lastActionTime := -1000000
    history := []
    lastPriceUpdate := -1000000
    autoResetAt := none
    playrate := 79/20
    bpm := 120 }

/-- The six command actions `process_commands` dispatches on. -/
def recognizedActions : List String :=
  ["enable", "disable", "queue", "cancel", "executeNow", "startPlayback"]

/-- A fixed host environment for concrete witness instances. -/
def hostW : Host :=
  { playMeasures := 0, measureStart := fun _ => none, stillPlayingAfterStop := false }

/-- A command-file content with an unrecognized action field. -/
def badContent : String := "\"action\":\"selfdestruct\""

/-- A concrete waiting-for-measure-end state for the C1 witness:
trigger measure 7, pending change to 2.0x in 4 beats. -/
def waitStateW : CoordState :=
  { initCoordState with
      enabled := true
      pending_change := some ⟨2, 4, 4, 1, 0⟩
      countdown_beats := 0
      waiting_for_measure_end := true
      trigger_measure := 7
      last_measure_int := 7
      last_beat_int := 3 }

/-- The queue command of the C2 scenario:
`queue(newRate r, warningBeats 4, preCountBars p)` at time `now`. -/
def c2Queue (host : Host) (now r : ℚ) (p : ℕ) (s0 : CoordState) : CoordState :=
  (applyCmd host now ⟨some "queue", some r, some 4, some p⟩ s0).1

/-- One poll of the C2 scenario: transport playing (`playState = 1`),
measure number `m`, observed beat `b`, 4 beats per measure. -/
def c2Tick (host : Host) (m b : ℚ) (s : CoordState) : CoordState × List HostAction :=
  pollTick host ⟨1, m, b, 4⟩ s

/-! ## Theorems: Timing Coordinator command handling (C3, C10, C9) -/

/-- C3: at most one PendingChange ever exists — the coordinator state holds a
single optional `pending_change` slot, and a second `queue` command
unconditionally replaces the first: after `queue(r1,...)` then `queue(r2,...)`
the state is exactly the state obtained from the second queue alone, with the
pending change targeting `r2` and the countdown reset to the second command's
warning beats. -/
theorem c3_second_queue_replaces_first (host : Host) (now1 now2 : ℚ)
    (r1 r2 : ℚ) (w1 w2 p1 p2 : ℕ) (s : CoordState) :
    applyCmd host now2 ⟨some "queue", some r2, some w2, some p2⟩
        (applyCmd host now1 ⟨some "queue", some r1, some w1, some p1⟩ s).1 =
      applyCmd host now2 ⟨some "queue", some r2, some w2, some p2⟩ s
    ∧ (applyCmd host now2 ⟨some "queue", some r2, some w2, some p2⟩ s).1.pending_change =
        some ⟨r2, w2, w2, p2, now2⟩
    ∧ (applyCmd host now2 ⟨some "queue", some r2, some w2, some p2⟩ s).1.countdown_beats = w2 := by
  refine ⟨?_, ?_, ?_⟩ <;> simp [applyCmd]

/-- C10: a `startPlayback` command while not waiting for the pre-count is
ignored (no host action, state exactly unchanged); when waiting for the
pre-count it issues exactly the transport-play action and clears the
execution phase. -/
theorem c10_startPlayback_frame (host : Host) (now : ℚ) (s : CoordState) :
    (s.waiting_for_precount = false →
      applyCmd host now ⟨some "startPlayback", none, none, none⟩ s = (s, []))
    ∧ (s.waiting_for_precount = true →
      applyCmd host now ⟨some "startPlayback", none, none, none⟩ s =
        ({ s with
            exec_phase := none
            exec_precount_bars := 0
            exec_new_rate := 0
            waiting_for_precount := false
            is_executing := false
            last_beat_int := -1
            last_measure_int := -1 }, [HostAction.play])) := by
  constructor <;> intro h <;> simp [applyCmd, execute_speed_change_play, h]

/-- Witness for C10 at concrete states (both sides of the pre-count flag). -/
theorem c10_startPlayback_frame_witness :
    applyCmd hostW 0 ⟨some "startPlayback", none, none, none⟩ initCoordState =
      (initCoordState, [])
    ∧ applyCmd hostW 0 ⟨some "startPlayback", none, none, none⟩
        { initCoordState with waiting_for_precount := true } =
      ({ initCoordState with
          exec_phase := none
          exec_precount_bars := 0
          exec_new_rate := 0
          waiting_for_precount := false
          is_executing := false
          last_beat_int := -1
          last_measure_int := -1 }, [HostAction.play]) :=
  ⟨(c10_startPlayback_frame hostW 0 initCoordState).1 rfl,
   (c10_startPlayback_frame hostW 0 { initCoordState with waiting_for_precount := true }).2 rfl⟩

/-- C9: any command-file content that does not parse to one of the six
recognized actions is consumed without effect — the file is deleted (the
mailbox becomes empty), the coordinator state is exactly unchanged, and no
host action is issued; the step is a total function, so the polling loop
continues. -/
theorem c9_malformed_command_discarded (host : Host) (now : ℚ) (content : String)
    (s : CoordState)
    (h : ∀ a ∈ recognizedActions, (parse_command content).action ≠ some a) :
    process_commands host now (some content) s = (none, s, []) := by
  simp only [process_commands]
  by_cases hc : content = ""
  · simp [hc]
  · simp only [if_neg hc]
    cases hact : (parse_command content).action with
    | none => simp
    | some a =>
      have h1 : ¬ a = "enable" := fun he =>
        h "enable" (by simp [recognizedActions]) (by rw [hact, he])
      have h2 : ¬ a = "disable" := fun he =>
        h "disable" (by simp [recognizedActions]) (by rw [hact, he])
      have h3 : ¬ a = "queue" := fun he =>
        h "queue" (by simp [recognizedActions]) (by rw [hact, he])
      have h4 : ¬ a = "cancel" := fun he =>
        h "cancel" (by simp [recognizedActions]) (by rw [hact, he])
      have h5 : ¬ a = "executeNow" := fun he =>
        h "executeNow" (by simp [recognizedActions]) (by rw [hact, he])
      have h6 : ¬ a = "startPlayback" := fun he =>
        h "startPlayback" (by simp [recognizedActions]) (by rw [hact, he])
      simp [applyCmd, hact, h1, h2, h3, h4, h5, h6]

/-- Witness for C9 on a concrete malformed command. -/
theorem c9_malformed_command_discarded_witness :
    (∀ a ∈ recognizedActions, (parse_command badContent).action ≠ some a)
    ∧ process_commands hostW 0 (some badContent) initCoordState =
        (none, initCoordState, []) :=
  ⟨by decide, c9_malformed_command_discarded hostW 0 badContent initCoordState (by decide)⟩

/-! ## Theorems: countdown and measure-boundary behavior (C1, C2) -/

/-- C1: in `WaitingForMeasureEnd` with trigger measure `N` (a state the
waiting branch maintains with `last_measure_int ≤ N`: it is entered with
`last_measure_int = N` and only ever lowers it), a playing poll tick performs
the stop/retune/seek execution if and only if it observes an integer measure
number strictly greater than `N`; while the observed integer measure is still
`N`, nothing is executed and the pending change, the waiting flag and the
trigger measure are all preserved. -/
theorem c1_measure_boundary (host : Host) (t : Obs) (s : CoordState) (pc : Pending) (N : ℤ)
    (hw : s.waiting_for_measure_end = true)
    (hp : s.pending_change = some pc)
    (ht : s.trigger_measure = N)
    (hl : s.last_measure_int ≤ N)
    (hx : s.is_executing = false)
    (hwp : s.waiting_for_precount = false)
    (he : s.enabled = true)
    (hplay : t.playState % 2 = 1) :
    ((pollTick host t s).2.head? = some HostAction.stopButton ↔ N < ⌊t.measures⌋)
    ∧ (⌊t.measures⌋ = N →
        (pollTick host t s).2 = []
        ∧ (pollTick host t s).1.pending_change = some pc
        ∧ (pollTick host t s).1.waiting_for_measure_end = true
        ∧ (pollTick host t s).1.trigger_measure = N) := by
  have hPoll : pollTick host t s =
      update_countdown host true
        { s with current_measure := t.measures, current_beat := t.beatInMeasure,
                 beats_in_measure := t.cml } := by
    simp [pollTick, update_position, hplay, he, hp, hwp]
  by_cases hm : N < ⌊t.measures⌋
  · have hne : ⌊t.measures⌋ ≠ s.last_measure_int := by
      intro hEq
      rw [hEq] at hm
      exact absurd hl (not_le.mpr hm)
    have hred : pollTick host t s =
        execute_speed_change_stop host
          { s with current_measure := t.measures, current_beat := t.beatInMeasure,
                   beats_in_measure := t.cml } := by
      rw [hPoll]
      simp [update_countdown, hp, hx, hw, hne, ht, hm]
    constructor
    · rw [hred]
      simp [execute_speed_change_stop, hp, hm]
    · intro hEq
      rw [hEq] at hm
      exact absurd hm (lt_irrefl N)
  · have hred : (pollTick host t s).2 = []
        ∧ (pollTick host t s).1.pending_change = s.pending_change
        ∧ (pollTick host t s).1.waiting_for_measure_end = s.waiting_for_measure_end
        ∧ (pollTick host t s).1.trigger_measure = s.trigger_measure := by
      rw [hPoll]
      simp only [update_countdown]
      split
      · simp
      · simp only [hw, if_pos rfl]
        rw [if_neg]
        · split <;> simp
        · rintro ⟨h1, h2⟩
          rw [ht] at h2
          exact hm h2
    refine ⟨?_, fun _ => ⟨hred.1, hred.2.1.trans hp, hred.2.2.1.trans hw, hred.2.2.2.trans ht⟩⟩
    rw [hred.1]
    simp [hm]

/-- Witness for C1 at a concrete waiting state and a concrete playing tick
that observes measure 8 (trigger measure 7). -/
theorem c1_measure_boundary_witness :
    ((pollTick hostW ⟨1, ((8:ℤ):ℚ), 0, 4⟩ waitStateW).2.head? = some HostAction.stopButton
      ↔ (7:ℤ) < ⌊((8:ℤ):ℚ)⌋)
    ∧ (⌊((8:ℤ):ℚ)⌋ = (7:ℤ) →
        (pollTick hostW ⟨1, ((8:ℤ):ℚ), 0, 4⟩ waitStateW).2 = []
        ∧ (pollTick hostW ⟨1, ((8:ℤ):ℚ), 0, 4⟩ waitStateW).1.pending_change =
            some ⟨2, 4, 4, 1, 0⟩
        ∧ (pollTick hostW ⟨1, ((8:ℤ):ℚ), 0, 4⟩ waitStateW).1.waiting_for_measure_end = true
        ∧ (pollTick hostW ⟨1, ((8:ℤ):ℚ), 0, 4⟩ waitStateW).1.trigger_measure = 7) :=
  c1_measure_boundary hostW ⟨1, ((8:ℤ):ℚ), 0, 4⟩ waitStateW ⟨2, 4, 4, 1, 0⟩ 7
    rfl rfl rfl (by decide) rfl rfl rfl (by decide)

/-- C2: after `queue` with `warningBeats = 4` and successive playing poll
observations of beats 1,2,3,4 in measure `M`, the countdown decrements once
per observed beat edge (3,2,1 after ticks 1-3, still not waiting), and
exactly on the 4th observed beat edge the coordinator transitions to
waiting-for-measure-end with `trigger_measure = M`, the pending change still
installed and no execution performed. -/
theorem c2_countdown (host : Host) (s0 : CoordState) (M : ℤ) (r now : ℚ) (p : ℕ)
    (hx : s0.is_executing = false)
    (hwp : s0.waiting_for_precount = false) :
    (((c2Tick host (M:ℚ) 1 (c2Queue host now r p s0)).1.waiting_for_measure_end = false
      ∧ (c2Tick host (M:ℚ) 1 (c2Queue host now r p s0)).1.countdown_beats = 3
      ∧ (c2Tick host (M:ℚ) 1 (c2Queue host now r p s0)).2 = [])
    ∧ ((c2Tick host (M:ℚ) 2 (c2Tick host (M:ℚ) 1 (c2Queue host now r p s0)).1).1.waiting_for_measure_end = false
      ∧ (c2Tick host (M:ℚ) 2 (c2Tick host (M:ℚ) 1 (c2Queue host now r p s0)).1).1.countdown_beats = 2
      ∧ (c2Tick host (M:ℚ) 2 (c2Tick host (M:ℚ) 1 (c2Queue host now r p s0)).1).2 = [])
    ∧ ((c2Tick host (M:ℚ) 3 (c2Tick host (M:ℚ) 2 (c2Tick host (M:ℚ) 1 (c2Queue host now r p s0)).1).1).1.waiting_for_measure_end = false
      ∧ (c2Tick host (M:ℚ) 3 (c2Tick host (M:ℚ) 2 (c2Tick host (M:ℚ) 1 (c2Queue host now r p s0)).1).1).1.countdown_beats = 1
      ∧ (c2Tick host (M:ℚ) 3 (c2Tick host (M:ℚ) 2 (c2Tick host (M:ℚ) 1 (c2Queue host now r p s0)).1).1).2 = []))
    ∧ ((c2Tick host (M:ℚ) 4 (c2Tick host (M:ℚ) 3 (c2Tick host (M:ℚ) 2 (c2Tick host (M:ℚ) 1 (c2Queue host now r p s0)).1).1).1).1.waiting_for_measure_end = true
      ∧ (c2Tick host (M:ℚ) 4 (c2Tick host (M:ℚ) 3 (c2Tick host (M:ℚ) 2 (c2Tick host (M:ℚ) 1 (c2Queue host now r p s0)).1).1).1).1.countdown_beats = 0
      ∧ (c2Tick host (M:ℚ) 4 (c2Tick host (M:ℚ) 3 (c2Tick host (M:ℚ) 2 (c2Tick host (M:ℚ) 1 (c2Queue host now r p s0)).1).1).1).1.trigger_measure = M
      ∧ (c2Tick host (M:ℚ) 4 (c2Tick host (M:ℚ) 3 (c2Tick host (M:ℚ) 2 (c2Tick host (M:ℚ) 1 (c2Queue host now r p s0)).1).1).1).1.pending_change = some ⟨r, 4, 4, p, now⟩
      ∧ (c2Tick host (M:ℚ) 4 (c2Tick host (M:ℚ) 3 (c2Tick host (M:ℚ) 2 (c2Tick host (M:ℚ) 1 (c2Queue host now r p s0)).1).1).1).2 = []) := by
  have h1 : c2Queue host now r p s0 =
      { s0 with
          enabled := true
          pending_change := some ⟨r, 4, 4, p, now⟩
          countdown_beats := 4
          waiting_for_measure_end := false
          trigger_measure := -1
          last_beat_int := -1
          last_measure_int := -1 } := by
    simp [c2Queue, applyCmd]
  have h2 : c2Tick host (M:ℚ) 1 (c2Queue host now r p s0) =
      ({ s0 with
          enabled := true
          pending_change := some ⟨r, 4, 4, p, now⟩
          countdown_beats := 3
          waiting_for_measure_end := false
          trigger_measure := -1
          last_beat_int := 1
          last_measure_int := M
          current_measure := (M:ℚ)
          current_beat := 1
          beats_in_measure := 4 }, []) := by
    rw [h1]
    simp [c2Tick, pollTick, update_position, update_countdown, hwp, hx]
  have h3 : c2Tick host (M:ℚ) 2 (c2Tick host (M:ℚ) 1 (c2Queue host now r p s0)).1 =
      ({ s0 with
          enabled := true
          pending_change := some ⟨r, 4, 4, p, now⟩
          countdown_beats := 2
          waiting_for_measure_end := false
          trigger_measure := -1
          last_beat_int := 2
          last_measure_int := M
          current_measure := (M:ℚ)
          current_beat := 2
          beats_in_measure := 4 }, []) := by
    rw [h2]
    simp [c2Tick, pollTick, update_position, update_countdown, hwp, hx]
  have h4 : c2Tick host (M:ℚ) 3 (c2Tick host (M:ℚ) 2 (c2Tick host (M:ℚ) 1 (c2Queue host now r p s0)).1).1 =
      ({ s0 with
          enabled := true
          pending_change := some ⟨r, 4, 4, p, now⟩
          countdown_beats := 1
          waiting_for_measure_end := false
          trigger_measure := -1
          last_beat_int := 3
          last_measure_int := M
          current_measure := (M:ℚ)
          current_beat := 3
          beats_in_measure := 4 }, []) := by
    rw [h3]
    simp [c2Tick, pollTick, update_position, update_countdown, hwp, hx]
  have h5 : c2Tick host (M:ℚ) 4 (c2Tick host (M:ℚ) 3 (c2Tick host (M:ℚ) 2 (c2Tick host (M:ℚ) 1 (c2Queue host now r p s0)).1).1).1 =
      ({ s0 with
          enabled := true
          pending_change := some ⟨r, 4, 4, p, now⟩
          countdown_beats := 0
          waiting_for_measure_end := true
          trigger_measure := M
          last_beat_int := 4
          last_measure_int := M
          current_measure := (M:ℚ)
          current_beat := 4
          beats_in_measure := 4 }, []) := by
    rw [h4]
    simp [c2Tick, pollTick, update_position, update_countdown, hwp, hx]
  exact ⟨⟨⟨by rw [h2], by rw [h2], by rw [h2]⟩,
          ⟨by rw [h3], by rw [h3], by rw [h3]⟩,
          ⟨by rw [h4], by rw [h4], by rw [h4]⟩⟩,
         by rw [h5], by rw [h5], by rw [h5], by rw [h5], by rw [h5]⟩

/-- Witness for C2 at a concrete initial state, measure 10 and rate 2.0x:
the 4th observed beat edge triggers the waiting-for-measure-end transition
with trigger measure 10, the 1st does not. -/
theorem c2_countdown_witness :
    (c2Tick hostW ((10:ℤ):ℚ) 4 (c2Tick hostW ((10:ℤ):ℚ) 3 (c2Tick hostW ((10:ℤ):ℚ) 2 (c2Tick hostW ((10:ℤ):ℚ) 1 (c2Queue hostW 0 2 1 initCoordState)).1).1).1).1.waiting_for_measure_end = true
    ∧ (c2Tick hostW ((10:ℤ):ℚ) 4 (c2Tick hostW ((10:ℤ):ℚ) 3 (c2Tick hostW ((10:ℤ):ℚ) 2 (c2Tick hostW ((10:ℤ):ℚ) 1 (c2Queue hostW 0 2 1 initCoordState)).1).1).1).1.trigger_measure = 10
    ∧ (c2Tick hostW ((10:ℤ):ℚ) 1 (c2Queue hostW 0 2 1 initCoordState)).1.waiting_for_measure_end = false :=
  ⟨(c2_countdown hostW initCoordState 10 2 0 1 rfl rfl).2.1,
   (c2_countdown hostW initCoordState 10 2 0 1 rfl rfl).2.2.2.1,
   (c2_countdown hostW initCoordState 10 2 0 1 rfl rfl).1.1.1⟩


/-! ## Theorems: Rate Controller policy (C4, C5, C6, C7) -/

/-- Evaluate `setPlayrate` once the clamped value and its half-up rounding
are known. -/
theorem setPlayrate_eval (cfg : GameCfg) (r c : ℚ) (z : ℤ)
    (hc : max cfg.minPlayrate (min cfg.maxPlayrate r) = c)
    (h1 : (z : ℚ) ≤ c * 100 + 1/2) (h2 : c * 100 + 1/2 < z + 1) :
    setPlayrate cfg r = (z : ℚ) / 100 := by
  unfold setPlayrate round2 jsRound
  rw [hc, Int.floor_eq_iff.mpr ⟨h1, h2⟩]

/-- With the engine enabled and off cooldown, `processAction`'s result is
the result of the dispatched action step. -/
theorem processAction_result (cfg : GameCfg) (rand : ℚ) (act : GAction)
    (user : String) (src : Option String) (now : ℚ) (s : EngState)
    (he : cfg.enabled = true) (hcd : isOnCooldown cfg now s = false) :
    (processAction cfg rand act user src now s).1 =
      (match act with
        | GAction.speedUp => speedUp cfg (jsOr cfg.speedUpIncrement (1/10)) s
        | GAction.slowDown => slowDown cfg (jsOr cfg.slowDownIncrement (1/10)) s
        | GAction.chaos => chaos cfg rand s
        | GAction.reset => reset cfg s
        | GAction.setExact =>
          ({ success := false, reason := some "unknown", newRate := none,
             cooldownRemaining := none }, s)).1 := by
  simp only [processAction, he, hcd]
  norm_num
  split <;> rfl

/-- Frame fact: `addToHistory` does not touch `lastActionTime`. -/
theorem addToHistory_lastActionTime (act user : String) (nr : ℚ)
    (src : Option String) (now : ℚ) (s : EngState) :
    (addToHistory act user nr src now s).lastActionTime = s.lastActionTime := rfl

/-- Frame fact: `scheduleAutoReset` does not touch `lastActionTime`. -/
theorem scheduleAutoReset_lastActionTime (cfg : GameCfg) (now : ℚ) (s : EngState) :
    (scheduleAutoReset cfg now s).lastActionTime = s.lastActionTime := by
  unfold scheduleAutoReset
  split <;> rfl

/-- Frame fact: `updatePrices` does not touch `lastActionTime`. -/
theorem updatePrices_lastActionTime (cfg : GameCfg) (now : ℚ) (s : EngState) :
    (updatePrices cfg now s).lastActionTime = s.lastActionTime := by
  unfold updatePrices
  split
  · rfl
  · split <;> rfl

/-- A successful `processAction` stamps `lastActionTime` with the call's
clock value. -/
theorem processAction_success_lastActionTime (cfg : GameCfg) (rand : ℚ)
    (act : GAction) (user : String) (src : Option String) (now : ℚ) (s : EngState)
    (h : (processAction cfg rand act user src now s).1.success = true) :
    (processAction cfg rand act user src now s).2.lastActionTime = now := by
  by_cases he : cfg.enabled = false
  · simp [processAction, he] at h
  · by_cases hcd : isOnCooldown cfg now s = true
    · simp [processAction, he, hcd] at h
    · simp only [processAction, he, hcd] at h ⊢
      norm_num at h ⊢
      split at h
      next hs =>
        rw [if_pos hs]
        rw [updatePrices_lastActionTime, scheduleAutoReset_lastActionTime,
          addToHistory_lastActionTime]
      next hs =>
        exact absurd h hs

/-- C6 counterexample: at rate 3.95x under bounds [0.5, 4.0] with increment
0.1 (enabled, off cooldown), the speed-up that would overshoot the maximum
does NOT fail with the bound-reached reason — it succeeds with the rate
clamped to 4.0. -/
theorem c6_overshoot_succeeds_clamped :
    engNear.playrate < cfgStd.maxPlayrate
    ∧ cfgStd.maxPlayrate < engNear.playrate + jsOr cfgStd.speedUpIncrement (1/10)
    ∧ (processAction cfgStd 0 GAction.speedUp "alice" none 0 engNear).1.success = true
    ∧ (processAction cfgStd 0 GAction.speedUp "alice" none 0 engNear).1.newRate = some 4 := by
  have hcd : isOnCooldown cfgStd 0 engNear = false := by
    simp only [isOnCooldown, cfgStd, engNear]
    norm_num
  have hres := processAction_result cfgStd 0 GAction.speedUp "alice" none 0 engNear rfl hcd
  have hval : setPlayrate cfgStd (engNear.playrate +
      getScaledIncrement cfgStd engNear.bpm (jsOr cfgStd.speedUpIncrement (1/10))) = 4 := by
    have hscale : getScaledIncrement cfgStd engNear.bpm (jsOr cfgStd.speedUpIncrement (1/10)) = 1/10 := by
      simp [getScaledIncrement, cfgStd, jsOr]
    rw [hscale]
    have := setPlayrate_eval cfgStd (engNear.playrate + 1/10) 4 400
      (by norm_num [cfgStd, engNear]) (by norm_num) (by norm_num)
    rw [this]
    norm_num
  have hsu : (speedUp cfgStd (jsOr cfgStd.speedUpIncrement (1/10)) engNear).1 =
      { success := true, reason := none, newRate := some 4, cooldownRemaining := none } := by
    simp only [speedUp]
    rw [if_neg (by simp [canSpeedUp, cfgStd, engNear]; norm_num)]
    rw [hval]
  refine ⟨by norm_num [engNear, cfgStd], by norm_num [engNear, cfgStd, jsOr], ?_, ?_⟩ <;>
    rw [hres, hsu]

/-- C6 (amended): with the engine enabled and off cooldown, `speedUp` fails
with the bound-reached reason exactly when the current rate is already at or
above the maximum (symmetrically for `slowDown` at the minimum); when the
current rate is strictly inside the bound, the call succeeds and the new
rate is the clamp-and-round of current + scaled increment (so an overshoot
is clamped, not rejected). -/
theorem c6_bound_policy (cfg : GameCfg) (rand : ℚ) (user : String)
    (src : Option String) (now : ℚ) (s : EngState)
    (he : cfg.enabled = true)
    (hcd : isOnCooldown cfg now s = false) :
    ((processAction cfg rand GAction.speedUp user src now s).1.reason = some "maxReached"
      ↔ cfg.maxPlayrate ≤ s.playrate)
    ∧ (s.playrate < cfg.maxPlayrate →
        (processAction cfg rand GAction.speedUp user src now s).1.success = true
        ∧ (processAction cfg rand GAction.speedUp user src now s).1.newRate =
            some (setPlayrate cfg (s.playrate +
              getScaledIncrement cfg s.bpm (jsOr cfg.speedUpIncrement (1/10)))))
    ∧ ((processAction cfg rand GAction.slowDown user src now s).1.reason = some "minReached"
      ↔ s.playrate ≤ cfg.minPlayrate)
    ∧ (cfg.minPlayrate < s.playrate →
        (processAction cfg rand GAction.slowDown user src now s).1.success = true
        ∧ (processAction cfg rand GAction.slowDown user src now s).1.newRate =
            some (setPlayrate cfg (s.playrate +
              -getScaledIncrement cfg s.bpm (jsOr cfg.slowDownIncrement (1/10))))) := by
  have h1 : (processAction cfg rand GAction.speedUp user src now s).1 =
      (speedUp cfg (jsOr cfg.speedUpIncrement (1/10)) s).1 :=
    processAction_result cfg rand GAction.speedUp user src now s he hcd
  have h2 : (processAction cfg rand GAction.slowDown user src now s).1 =
      (slowDown cfg (jsOr cfg.slowDownIncrement (1/10)) s).1 :=
    processAction_result cfg rand GAction.slowDown user src now s he hcd
  refine ⟨?_, ?_, ?_, ?_⟩
  · rw [h1]
    by_cases hlt : s.playrate < cfg.maxPlayrate
    · have hcan : canSpeedUp cfg s.playrate = true := by simp [canSpeedUp, hlt]
      simp only [speedUp, hcan]
      simp [not_le.mpr hlt]
    · have hcan : canSpeedUp cfg s.playrate = false := by simp [canSpeedUp, hlt]
      simp only [speedUp, hcan]
      simp [not_lt.mp hlt]
  · intro hlt
    have hcan : canSpeedUp cfg s.playrate = true := by simp [canSpeedUp, hlt]
    rw [h1]
    simp only [speedUp, hcan]
    simp
  · rw [h2]
    by_cases hlt : cfg.minPlayrate < s.playrate
    · have hcan : canSlowDown cfg s.playrate = true := by simp [canSlowDown, hlt]
      simp only [slowDown, hcan]
      simp [not_le.mpr hlt]
    · have hcan : canSlowDown cfg s.playrate = false := by simp [canSlowDown, hlt]
      simp only [slowDown, hcan]
      simp [not_lt.mp hlt]
  · intro hlt
    have hcan : canSlowDown cfg s.playrate = true := by simp [canSlowDown, hlt]
    rw [h2]
    simp only [slowDown, hcan]
    simp

/-- Witness for the amended C6 at the cooldown-disabled configuration and
the 3.95x state. -/
theorem c6_bound_policy_witness :
    ((processAction cfgNoCd 0 GAction.speedUp "u" none 0 engNear).1.reason = some "maxReached"
      ↔ cfgNoCd.maxPlayrate ≤ engNear.playrate)
    ∧ (engNear.playrate < cfgNoCd.maxPlayrate →
        (processAction cfgNoCd 0 GAction.speedUp "u" none 0 engNear).1.success = true
        ∧ (processAction cfgNoCd 0 GAction.speedUp "u" none 0 engNear).1.newRate =
            some (setPlayrate cfgNoCd (engNear.playrate +
              getScaledIncrement cfgNoCd engNear.bpm (jsOr cfgNoCd.speedUpIncrement (1/10)))))
    ∧ ((processAction cfgNoCd 0 GAction.slowDown "u" none 0 engNear).1.reason = some "minReached"
      ↔ engNear.playrate ≤ cfgNoCd.minPlayrate)
    ∧ (cfgNoCd.minPlayrate < engNear.playrate →
        (processAction cfgNoCd 0 GAction.slowDown "u" none 0 engNear).1.success = true
        ∧ (processAction cfgNoCd 0 GAction.slowDown "u" none 0 engNear).1.newRate =
            some (setPlayrate cfgNoCd (engNear.playrate +
              -getScaledIncrement cfgNoCd engNear.bpm (jsOr cfgNoCd.slowDownIncrement (1/10))))) :=
  c6_bound_policy cfgNoCd 0 "u" none 0 engNear rfl rfl

/-- C7 counterexample: with game mode enabled and no cooldown pending,
`processAction` rejects the exact-rate kind as an unknown action instead of
accepting it — and the actual exact-rate path (`setPlayrateDirect`) succeeds
even though this very configuration/state combination would pass the policy
checks trivially, because it never consults them. -/
theorem c7_setExact_rejected_as_unknown :
    cfgStd.enabled = true
    ∧ isOnCooldown cfgStd 0 engNear = false
    ∧ processAction cfgStd 0 GAction.setExact "mod" none 0 engNear =
        ({ success := false, reason := some "unknown", newRate := none,
           cooldownRemaining := none }, engNear) := by
  have hcd : isOnCooldown cfgStd 0 engNear = false := by
    simp only [isOnCooldown, cfgStd, engNear]
    norm_num
  refine ⟨rfl, hcd, ?_⟩
  simp [processAction, hcd, show cfgStd.enabled = true from rfl]

/-- C7 (amended): `processAction` dispatches exactly the four kinds speedUp,
slowDown, chaos, reset; a `setExact` request is rejected with reason
`unknown` and no state change even when enabled and off cooldown.  Exact
rates go through the separate `setPlayrateDirect` entry point, which
range-validates but performs no disabled check and no cooldown check: it
succeeds on every in-range rate for every configuration and state. -/
theorem c7_setExact_policy (cfg : GameCfg) (rand : ℚ) (user : String)
    (src : Option String) (now : ℚ) (s : EngState)
    (he : cfg.enabled = true)
    (hcd : isOnCooldown cfg now s = false) :
    processAction cfg rand GAction.setExact user src now s =
      ({ success := false, reason := some "unknown", newRate := none,
         cooldownRemaining := none }, s)
    ∧ (∀ a : GAction, a ≠ GAction.setExact →
        (processAction cfg rand a user src now s).1.reason ≠ some "unknown")
    ∧ (∀ cfg2 : GameCfg, ∀ s2 : EngState, ∀ rate : ℚ,
        jsOr cfg2.minPlayrate (1/2) ≤ rate → rate ≤ jsOr cfg2.maxPlayrate 4 →
        (setPlayrateDirect cfg2 user rate src now s2).1.success = true
        ∧ (setPlayrateDirect cfg2 user rate src now s2).1.newRate =
            some (setPlayrate cfg2 rate)) := by
  refine ⟨by simp [processAction, he, hcd], ?_, ?_⟩
  · intro a ha
    cases a
    case setExact => exact absurd rfl ha
    case speedUp =>
      rw [processAction_result cfg rand GAction.speedUp user src now s he hcd]
      simp only [speedUp]
      split <;> simp
    case slowDown =>
      rw [processAction_result cfg rand GAction.slowDown user src now s he hcd]
      simp only [slowDown]
      split <;> simp
    case chaos =>
      rw [processAction_result cfg rand GAction.chaos user src now s he hcd]
      simp [chaos]
    case reset =>
      rw [processAction_result cfg rand GAction.reset user src now s he hcd]
      simp [reset]
  · intro cfg2 s2 rate hlo hhi
    have hcond : ¬ (rate < jsOr cfg2.minPlayrate (1/2) ∨ jsOr cfg2.maxPlayrate 4 < rate) := by
      rintro (h | h)
      · exact absurd hlo (not_le.mpr h)
      · exact absurd hhi (not_le.mpr h)
    simp only [setPlayrateDirect]
    rw [if_neg hcond]
    exact ⟨rfl, rfl⟩

/-- Witness for the amended C7 at the cooldown-disabled configuration. -/
theorem c7_setExact_policy_witness :
    processAction cfgNoCd 0 GAction.setExact "mod" none 0 engNear =
      ({ success := false, reason := some "unknown", newRate := none,
         cooldownRemaining := none }, engNear)
    ∧ (∀ a : GAction, a ≠ GAction.setExact →
        (processAction cfgNoCd 0 a "mod" none 0 engNear).1.reason ≠ some "unknown")
    ∧ (∀ cfg2 : GameCfg, ∀ s2 : EngState, ∀ rate : ℚ,
        jsOr cfg2.minPlayrate (1/2) ≤ rate → rate ≤ jsOr cfg2.maxPlayrate 4 →
        (setPlayrateDirect cfg2 "mod" rate none 0 s2).1.success = true
        ∧ (setPlayrateDirect cfg2 "mod" rate none 0 s2).1.newRate =
            some (setPlayrate cfg2 rate)) :=
  c7_setExact_policy cfgNoCd 0 "mod" none 0 engNear rfl rfl

/-- C5 (amended): after a successful `processAction` at `t1`, a second call
at `t2` with elapsed time under the enabled cooldown fails with reason
`cooldown` and leaves the engine state exactly unchanged; the reported
remaining seconds `⌈seconds - elapsed⌉` is strictly positive and at most
`⌈seconds⌉` (equal to the configured value whenever it is a whole number of
seconds — `Math.ceil` can exceed a fractional configured value). -/
theorem c5_cooldown (cfg : GameCfg) (rand1 rand2 : ℚ) (a1 a2 : GAction)
    (u1 u2 : String) (src1 src2 : Option String) (t1 t2 : ℚ) (s0 : EngState)
    (he : cfg.enabled = true)
    (hcde : cfg.cooldownEnabled = true)
    (hsucc : (processAction cfg rand1 a1 u1 src1 t1 s0).1.success = true)
    (hle : t1 ≤ t2)
    (hlt : (t2 - t1) / 1000 < cfg.cooldownSeconds) :
    processAction cfg rand2 a2 u2 src2 t2 (processAction cfg rand1 a1 u1 src1 t1 s0).2 =
      ({ success := false, reason := some "cooldown", newRate := none,
         cooldownRemaining := some ⌈cfg.cooldownSeconds - (t2 - t1) / 1000⌉ },
       (processAction cfg rand1 a1 u1 src1 t1 s0).2)
    ∧ 0 < ⌈cfg.cooldownSeconds - (t2 - t1) / 1000⌉
    ∧ ⌈cfg.cooldownSeconds - (t2 - t1) / 1000⌉ ≤ ⌈cfg.cooldownSeconds⌉ := by
  have hT : (processAction cfg rand1 a1 u1 src1 t1 s0).2.lastActionTime = t1 :=
    processAction_success_lastActionTime cfg rand1 a1 u1 src1 t1 s0 hsucc
  set s1 : EngState := (processAction cfg rand1 a1 u1 src1 t1 s0).2 with hs1
  have hpos : (0:ℚ) < cfg.cooldownSeconds - (t2 - t1) / 1000 := by linarith
  have hceilpos : 0 < ⌈cfg.cooldownSeconds - (t2 - t1) / 1000⌉ := Int.ceil_pos.mpr hpos
  have hmono : ⌈cfg.cooldownSeconds - (t2 - t1) / 1000⌉ ≤ ⌈cfg.cooldownSeconds⌉ := by
    apply Int.ceil_mono
    have hnn : (0:ℚ) ≤ (t2 - t1) / 1000 := div_nonneg (sub_nonneg.mpr hle) (by norm_num)
    linarith
  have hon : isOnCooldown cfg t2 s1 = true := by
    simp only [isOnCooldown, hcde, hT]
    norm_num
    exact hlt
  have hrem : getCooldownRemaining cfg t2 s1 =
      ⌈cfg.cooldownSeconds - (t2 - t1) / 1000⌉ := by
    simp only [getCooldownRemaining, hcde, hT]
    norm_num
    exact le_of_lt hceilpos
  refine ⟨?_, hceilpos, hmono⟩
  simp [processAction, he, hon, hrem]

/-- A successful first call for the C5 witness scenario. -/
theorem engNear_reset_success :
    (processAction cfgStd 0 GAction.reset "a" none 0 engNear).1.success = true := by
  have hcd : isOnCooldown cfgStd 0 engNear = false := by
    simp only [isOnCooldown, cfgStd, engNear]
    norm_num
  rw [processAction_result cfgStd 0 GAction.reset "a" none 0 engNear rfl hcd]
  simp [reset]

/-- The elapsed-below-cooldown fact for the C5 witness scenario. -/
theorem c5_elapsed_lt : ((0:ℚ) - 0) / 1000 < cfgStd.cooldownSeconds := by
  norm_num [cfgStd]

/-- Witness for the amended C5: two immediate calls under the default
5-second cooldown; the second fails with reason cooldown and remaining 5. -/
theorem c5_cooldown_witness :
    processAction cfgStd 0 GAction.reset "b" none 0
        (processAction cfgStd 0 GAction.reset "a" none 0 engNear).2 =
      ({ success := false, reason := some "cooldown", newRate := none,
         cooldownRemaining := some ⌈cfgStd.cooldownSeconds - ((0:ℚ) - 0) / 1000⌉ },
       (processAction cfgStd 0 GAction.reset "a" none 0 engNear).2)
    ∧ 0 < ⌈cfgStd.cooldownSeconds - ((0:ℚ) - 0) / 1000⌉
    ∧ ⌈cfgStd.cooldownSeconds - ((0:ℚ) - 0) / 1000⌉ ≤ ⌈cfgStd.cooldownSeconds⌉ :=
  c5_cooldown cfgStd 0 0 GAction.reset GAction.reset "a" "b" none none 0 0 engNear
    rfl rfl engNear_reset_success (le_refl 0) c5_elapsed_lt

/-- C5 counterexample for the claim's "remaining ≤ configured seconds"
bound: with a fractional 4.5-second cooldown, a second call 200 ms after a
successful one reports 5 remaining seconds, which exceeds 4.5. -/
theorem c5_fractional_cooldown_counterexample :
    cfgHalfCd.cooldownEnabled = true
    ∧ (processAction cfgHalfCd 0 GAction.reset "a" none 0 engNear).1.success = true
    ∧ ((200:ℚ) - 0) / 1000 < cfgHalfCd.cooldownSeconds
    ∧ (processAction cfgHalfCd 0 GAction.reset "b" none 200
        (processAction cfgHalfCd 0 GAction.reset "a" none 0 engNear).2).1.reason = some "cooldown"
    ∧ (processAction cfgHalfCd 0 GAction.reset "b" none 200
        (processAction cfgHalfCd 0 GAction.reset "a" none 0 engNear).2).1.cooldownRemaining = some 5
    ∧ ¬ ((5:ℚ) ≤ cfgHalfCd.cooldownSeconds) := by
  have hcd0 : isOnCooldown cfgHalfCd 0 engNear = false := by
    simp only [isOnCooldown, cfgHalfCd, cfgStd, engNear]
    norm_num
  have hsucc1 : (processAction cfgHalfCd 0 GAction.reset "a" none 0 engNear).1.success = true := by
    rw [processAction_result cfgHalfCd 0 GAction.reset "a" none 0 engNear rfl hcd0]
    simp [reset]
  have hT := processAction_success_lastActionTime cfgHalfCd 0 GAction.reset "a" none 0 engNear hsucc1
  set s1 : EngState := (processAction cfgHalfCd 0 GAction.reset "a" none 0 engNear).2 with hs1
  have hon : isOnCooldown cfgHalfCd 200 s1 = true := by
    simp only [isOnCooldown, show cfgHalfCd.cooldownEnabled = true from rfl, hT,
      show cfgHalfCd.cooldownSeconds = 9/2 from rfl]
    norm_num
  have hrem : getCooldownRemaining cfgHalfCd 200 s1 = 5 := by
    simp only [getCooldownRemaining, show cfgHalfCd.cooldownEnabled = true from rfl, hT,
      show cfgHalfCd.cooldownSeconds = 9/2 from rfl]
    norm_num
    rw [show (⌈(43:ℚ)/10⌉ : ℤ) = 5 by rw [Int.ceil_eq_iff]; norm_num]
    norm_num
  refine ⟨rfl, hsucc1, by norm_num [cfgHalfCd, cfgStd], ?_, ?_, by norm_num [cfgHalfCd, cfgStd]⟩ <;>
    simp [processAction, show cfgHalfCd.enabled = true from rfl, hon, hrem]

/-- C4 counterexample: `setPlayrate` clamps before rounding, so with the
bound configuration `minPlayrate = 0.034` the returned rate 0.03 escapes
`[minPlayrate, maxPlayrate]`. -/
theorem c4_round_escapes_bounds :
    setPlayrate cfgTight 0 = 3/100
    ∧ ¬ (cfgTight.minPlayrate ≤ setPlayrate cfgTight 0) := by
  have h := setPlayrate_eval cfgTight 0 (17/500) 3
    (by norm_num [cfgTight, cfgStd]) (by norm_num) (by norm_num)
  constructor
  · rw [h]
    norm_num
  · rw [h]
    norm_num [cfgTight, cfgStd]

/-- C4 (amended): for every rate `r` and every bounds configuration whose
`minPlayrate` and `maxPlayrate` are whole numbers of hundredths with
`min ≤ max`, `setPlayrate r` lies in `[minPlayrate, maxPlayrate]` and is an
exact 2-decimal value, and the value sent to the host is the
clamped-rounded rate mapped linearly from `[0.25, 4.0]` into `[0, 1]` and
clamped to `[0, 1]`. -/
theorem c4_setRate_bounds (cfg : GameCfg) (r : ℚ) (m n : ℤ)
    (hm : cfg.minPlayrate = (m : ℚ) / 100)
    (hn : cfg.maxPlayrate = (n : ℚ) / 100)
    (hmn : cfg.minPlayrate ≤ cfg.maxPlayrate) :
    (cfg.minPlayrate ≤ setPlayrate cfg r ∧ setPlayrate cfg r ≤ cfg.maxPlayrate)
    ∧ (∃ k : ℤ, setPlayrate cfg r = (k : ℚ) / 100)
    ∧ (0 ≤ setPlayrateNormalized cfg r ∧ setPlayrateNormalized cfg r ≤ 1)
    ∧ setPlayrateNormalized cfg r =
        max 0 (min 1 ((setPlayrate cfg r - 1/4) / (4 - 1/4))) := by
  set c := max cfg.minPlayrate (min cfg.maxPlayrate r) with hc
  have hc1 : cfg.minPlayrate ≤ c := le_max_left _ _
  have hc2 : c ≤ cfg.maxPlayrate := max_le hmn (min_le_left _ _)
  have hsp : setPlayrate cfg r = (⌊c * 100 + 1/2⌋ : ℚ) / 100 := by
    unfold setPlayrate round2 jsRound
    rw [← hc]
  have hlow : m ≤ ⌊c * 100 + 1/2⌋ := by
    apply Int.le_floor.mpr
    have hmc : (m : ℚ) ≤ c * 100 := by
      rw [hm] at hc1
      have := (div_le_iff₀ (by norm_num : (0:ℚ) < 100)).mp hc1
      linarith
    linarith
  have hhigh : ⌊c * 100 + 1/2⌋ ≤ n := by
    have hcn : c * 100 ≤ (n:ℚ) := by
      rw [hn] at hc2
      have := (le_div_iff₀ (by norm_num : (0:ℚ) < 100)).mp hc2
      linarith
    apply Int.lt_add_one_iff.mp
    apply Int.floor_lt.mpr
    push_cast
    linarith
  refine ⟨⟨?_, ?_⟩, ⟨⌊c * 100 + 1/2⌋, hsp⟩, ⟨?_, ?_⟩, rfl⟩
  · rw [hsp, hm]
    exact (div_le_div_iff_of_pos_right (by norm_num : (0:ℚ) < 100)).mpr (by exact_mod_cast hlow)
  · rw [hsp, hn]
    exact (div_le_div_iff_of_pos_right (by norm_num : (0:ℚ) < 100)).mpr (by exact_mod_cast hhigh)
  · exact le_max_left _ _
  · exact max_le (by norm_num) (min_le_left _ _)

/-- The default minimum bound 0.5 as a whole number of hundredths. -/
theorem cfgStd_min_eq : cfgStd.minPlayrate = ((50:ℤ) : ℚ) / 100 := by
  norm_num [cfgStd]

/-- The default maximum bound 4.0 as a whole number of hundredths. -/
theorem cfgStd_max_eq : cfgStd.maxPlayrate = ((400:ℤ) : ℚ) / 100 := by
  norm_num [cfgStd]

/-- The default bounds are ordered. -/
theorem cfgStd_min_le_max : cfgStd.minPlayrate ≤ cfgStd.maxPlayrate := by
  norm_num [cfgStd]

/-- Witness for the amended C4 at the default bounds [0.5, 4.0] and the
out-of-range request 7x. -/
theorem c4_setRate_bounds_witness :
    (cfgStd.minPlayrate ≤ setPlayrate cfgStd 7 ∧ setPlayrate cfgStd 7 ≤ cfgStd.maxPlayrate)
    ∧ (∃ k : ℤ, setPlayrate cfgStd 7 = (k : ℚ) / 100)
    ∧ (0 ≤ setPlayrateNormalized cfgStd 7 ∧ setPlayrateNormalized cfgStd 7 ≤ 1)
    ∧ setPlayrateNormalized cfgStd 7 =
        max 0 (min 1 ((setPlayrate cfgStd 7 - 1/4) / (4 - 1/4))) :=
  c4_setRate_bounds cfgStd 7 50 400 cfgStd_min_eq cfgStd_max_eq cfgStd_min_le_max

/-! ## Theorems: dynamic pricing (C8) -/

/-- The multiplier `2.5 ^ 1.5` exceeds its base. -/
theorem pow15_gt : (5/2:ℝ) < (5/2:ℝ) ^ ((3/2):ℝ) := by
  conv_lhs => rw [← Real.rpow_one (5/2:ℝ)]
  exact (Real.rpow_lt_rpow_left_iff (by norm_num : (1:ℝ) < 5/2)).mpr (by norm_num)

/-- The multiplier `2.5 ^ 1.5` is below 4 (its square is `2.5³ = 15.625 < 16`). -/
theorem pow15_lt4 : (5/2:ℝ) ^ ((3/2):ℝ) < 4 := by
  have hsq : ((5/2:ℝ) ^ ((3/2):ℝ)) ^ (2:ℕ) = (125/8:ℝ) := by
    rw [← Real.rpow_natCast ((5/2:ℝ) ^ ((3/2):ℝ)) 2,
      ← Real.rpow_mul (by norm_num : (0:ℝ) ≤ 5/2)]
    norm_num
  nlinarith [Real.rpow_pos_of_pos (by norm_num : (0:ℝ) < 5/2) ((3/2):ℝ)]

/-- Lower bound through `Math.round`. -/
theorem jsRoundR_ge (x : ℝ) (z : ℤ) (h : (z:ℝ) ≤ x + 1/2) : (z:ℝ) ≤ jsRoundR x := by
  unfold jsRoundR
  exact_mod_cast Int.le_floor.mpr h

/-- Upper bound through `Math.round`. -/
theorem jsRoundR_le (x : ℝ) (z : ℤ) (h : x + 1/2 < (z:ℝ) + 1) : jsRoundR x ≤ (z:ℝ) := by
  unfold jsRoundR
  have hf : ⌊x + 1/2⌋ < z + 1 := Int.floor_lt.mpr (by push_cast; linarith)
  exact_mod_cast Int.lt_add_one_iff.mp hf

/-- C8: under the default pricing configuration, at playrate 2.0x (distance
1.0 from the 1.0x default) the computed speed-up cost strictly exceeds the
slow-down cost, and both lie within `[minCost, maxCost] = [100, 50000]`
(the speed-up multiplier is `2.5^1.5 ∈ (2.5, 4)`, the slow-down multiplier
is 0.7, so the costs are `round(500·2.5^1.5) ∈ [1250, 2000]` and 350). -/
theorem c8_pricing_asymmetry :
    (calculateDynamicPrices defaultPricing 2).slowDown
      < (calculateDynamicPrices defaultPricing 2).speedUp
    ∧ 100 ≤ (calculateDynamicPrices defaultPricing 2).speedUp
    ∧ (calculateDynamicPrices defaultPricing 2).speedUp ≤ 50000
    ∧ 100 ≤ (calculateDynamicPrices defaultPricing 2).slowDown
    ∧ (calculateDynamicPrices defaultPricing 2).slowDown ≤ 50000 := by
  have hgt := pow15_gt
  have hlt := pow15_lt4
  have hsd : (calculateDynamicPrices defaultPricing 2).slowDown = 350 := by
    simp only [calculateDynamicPrices, defaultPricing]
    norm_num
    unfold jsRoundR
    rw [show ⌊(350:ℝ) + 1/2⌋ = 350 by rw [Int.floor_eq_iff]; norm_num]
    norm_num
  have hsu_lo : (1250:ℝ) ≤ (calculateDynamicPrices defaultPricing 2).speedUp := by
    simp only [calculateDynamicPrices, defaultPricing]
    norm_num
    rw [max_eq_right (by nlinarith), min_eq_right (by nlinarith)]
    exact_mod_cast jsRoundR_ge (500 * (5/2:ℝ) ^ ((3/2):ℝ)) 1250 (by nlinarith)
  have hsu_hi : (calculateDynamicPrices defaultPricing 2).speedUp ≤ 50000 := by
    simp only [calculateDynamicPrices, defaultPricing]
    norm_num
    rw [max_eq_right (by nlinarith), min_eq_right (by nlinarith)]
    exact_mod_cast jsRoundR_le (500 * (5/2:ℝ) ^ ((3/2):ℝ)) 50000 (by nlinarith)
  refine ⟨?_, by linarith, hsu_hi, by rw [hsd]; norm_num, by rw [hsd]; norm_num⟩
  rw [hsd]
  linarith
